import Mathlib

/-!
Shallow embedding of `src/lib/taurus/qt/qtgui/input/tauruslineedit.py`.

Python floats (which here are only compared, never subjected to rounding)
are modelled as rationals extended with the two infinities; pint quantities
as a magnitude together with a units tag, where comparing two quantities
with different units raises `DimensionalityError`; the pint string parser
`Quantity(input)` is abstracted as a `String → Option Quantity` parameter
(`none` models any exception raised while parsing).  Widget methods become
functions on an explicit widget-state record.
-/

namespace TaurusSpec

/-- A Python float value as used in this module: `-inf`, a finite value, or
`+inf` (`NaN` never arises in the modelled code paths). -/
inductive PFloat
  | negInf
  | fin (q : ℚ)
  | posInf
deriving DecidableEq, Repr

/-- Strict `<` on Python floats. -/
def PFloat.blt : PFloat → PFloat → Bool
  | .negInf, .negInf => false
  | .negInf, _ => true
  | _, .negInf => false
  | .fin a, .fin b => decide (a < b)
  | .fin _, .posInf => true
  | .posInf, _ => false

/-- Non-strict `<=` on Python floats (total order, no NaN). -/
def PFloat.ble (a b : PFloat) : Bool := !(PFloat.blt b a)

/-- A pint `Quantity`: a magnitude together with its units (magnitudes are
kept in base units, so two quantities with the same units tag compare by
magnitude and two quantities with different units are incomparable). -/
structure Quantity where
  mag : PFloat
  units : String
deriving DecidableEq, Repr

/-- The one pint exception the module catches: `DimensionalityError`. -/
inductive PintError
  | dimensionalityError
deriving DecidableEq, Repr

/-- `a < b` on quantities: compares magnitudes when the units agree,
raises `DimensionalityError` otherwise. -/
def Quantity.qlt (a b : Quantity) : Except PintError Bool :=
  if a.units = b.units then .ok (PFloat.blt a.mag b.mag)
  else .error .dimensionalityError

/-- `a > b` on quantities: compares magnitudes when the units agree,
raises `DimensionalityError` otherwise. -/
def Quantity.qgt (a b : Quantity) : Except PintError Bool :=
  if a.units = b.units then .ok (PFloat.blt b.mag a.mag)
  else .error .dimensionalityError

/-- `Quantity(x)` applied to a plain Python float: a dimensionless
quantity with that magnitude. -/
def Quantity.ofFloat (x : PFloat) : Quantity :=
  { mag := x, units := "dimensionless" }

/-- The three `QValidator` result states. -/
inductive QState
  | Invalid
  | Intermediate
  | Acceptable
deriving DecidableEq, Repr

/-- `_PintValidator`: optional bottom and top limits (both stored as
quantities, `None` when not enforced). -/
structure PintValidator where
  bottom : Option Quantity
  top : Option Quantity
deriving DecidableEq, Repr

/-- `_PintValidator.setBottom`: stores `Quantity(bottom)`. -/
def PintValidator.setBottom (v : PintValidator) (b : PFloat) : PintValidator :=
  { v with bottom := some (Quantity.ofFloat b) }

/-- `_PintValidator.setTop`: stores `Quantity(top)`. -/
def PintValidator.setTop (v : PintValidator) (t : PFloat) : PintValidator :=
  { v with top := some (Quantity.ofFloat t) }

/-- The `if self.top is not None and q > self.top` check of `_validate`:
`ok true` means the top limit is violated. -/
def PintValidator.checkTop (v : PintValidator) (q : Quantity) : Except PintError Bool :=
  match v.top with
  | none => .ok false
  | some t =>
    match q.qgt t with
    | .error e => .error e
    | .ok true => .ok true
    | .ok false => .ok false

/-- The body of the `try` block of `_validate`: first the bottom check,
then the top check; `ok true` means some set limit is violated, `error`
models a `DimensionalityError` escaping a comparison. -/
def PintValidator.checkLimits (v : PintValidator) (q : Quantity) : Except PintError Bool :=
  match v.bottom with
  | none => v.checkTop q
  | some b =>
    match q.qlt b with
    | .error e => .error e
    | .ok true => .ok true
    | .ok false => v.checkTop q

/-- `_PintValidator._validate input pos`: `Intermediate` when `Quantity(input)`
raises, `Invalid` when a set limit is violated or a comparison raises
`DimensionalityError`, `Acceptable` otherwise; the input string and the
cursor position are returned unchanged.  The pint parser is the `parse`
parameter (`none` models a parse failure). -/
def PintValidator.qValidate (parse : String → Option Quantity) (v : PintValidator)
    (input : String) (pos : ℕ) : QState × String × ℕ :=
  match parse input with
  | none => (.Intermediate, input, pos)
  | some q =>
    match v.checkLimits q with
    | .error _ => (.Invalid, input, pos)
    | .ok true => (.Invalid, input, pos)
    | .ok false => (.Acceptable, input, pos)

/-- A Python value as observed by this module: `pyStr` is `str(v)` and
`pyFloat` is the result of `float(v)` (`none` when the conversion raises). -/
structure PyValue where
  pyStr : String
  pyFloat : Option PFloat

/-- `str(None)` is `"None"` and `float(None)` raises. -/
def pyNone : PyValue := { pyStr := "None", pyFloat := none }

/-- `v` when `getValue` returned a value, the Python `None` object otherwise. -/
def pyOf : Option PyValue → PyValue
  | none => pyNone
  | some v => v

/-- The taurus attribute (model object) as used by the widget:
`encode` models `model.encode` (`none` when it raises), `numericB` and
`floatB` model `model.isNumeric()` and `model.isFloat()`. -/
structure TaurusAttr where
  encode : String → Option PyValue
  numericB : Bool
  floatB : Bool

/-- `taurus.core.taurusbasetypes.TaurusEventType` (the members this module
distinguishes). -/
inductive TaurusEventType
  | Change
  | Config
  | Periodic
  | Err
deriving DecidableEq, Repr

/-- `taurus.core.DataType` members. -/
inductive DataType
  | Boolean
  | Integer
  | Float
  | Str
  | Bytes
  | DevState
  | Object
deriving DecidableEq, Repr

/-- The data carried by a Config event: `alarm` and `range` pairs read from
the model object (`attr.alarm`, `attr.range`) and the data type of the
event value (`evt_value.type`). -/
structure AttrConfig where
  alarm : PFloat × PFloat
  range : PFloat × PFloat
  vtype : DataType

/-- The `TaurusValueLineEdit` state the claims touch.  `__init__` sets the
alarm and limit fields to the infinities and the validator to `None`. -/
structure Widget where
  model : Option TaurusAttr := none
  text : String := ""
  minAlarm : PFloat := .negInf
  maxAlarm : PFloat := .posInf
  minLimit : PFloat := .negInf
  maxLimit : PFloat := .posInf
  validator : Option PintValidator := none
  pendingOps : Bool := false
  autoApply : Bool := false
  enableWheelEvent : Bool := false
  readOnly : Bool := false

/-- `TaurusValueLineEdit.getValue`: `model.encode(self.text())`, with any
exception (including the `AttributeError` from a `None` model) caught and
turned into `None`. -/
def Widget.getValue (w : Widget) : Option PyValue :=
  match w.model with
  | none => none
  | some m => m.encode w.text

/-- `TaurusValueLineEdit._inAlarm`: `not(minAlarm < float(v) < maxAlarm)`,
`False` when `float(v)` raises. -/
def Widget.inAlarm (w : Widget) (v : PyValue) : Bool :=
  match v.pyFloat with
  | none => false
  | some x => !(PFloat.blt w.minAlarm x && PFloat.blt x w.maxAlarm)

/-- `TaurusValueLineEdit._outOfRange`: with a validator installed, the
validator state on `str(v)` differs from `Acceptable`; without one, the
numeric fallback `not(minLimit <= float(v) <= maxLimit)` with any
conversion error giving `False`. -/
def Widget.outOfRange (parse : String → Option Quantity) (w : Widget) (v : PyValue) : Bool :=
  match w.validator with
  | some val => decide ((val.qValidate parse v.pyStr 0).1 ≠ QState.Acceptable)
  | none =>
    match v.pyFloat with
    | none => false
    | some x => !(PFloat.ble w.minLimit x && PFloat.ble x w.maxLimit)

/-- The `(color, weight)` pair computed by `TaurusValueLineEdit.updateStyle`:
defaults `('black', 'normal')`, then the `if/elif` chain on
`self.getValue()`. -/
def Widget.updateStyleColors (parse : String → Option Quantity) (w : Widget) : String × String :=
  let color := "black"
  let weight := "normal"
  let v := pyOf w.getValue
  if w.outOfRange parse v then ("gray", weight)
  else if w.inAlarm v then ("orange", if w.pendingOps then "bold" else weight)
  else if w.pendingOps then ("blue", "bold")
  else (color, weight)

/-- The style sheet string set by `TaurusValueLineEdit.updateStyle`. -/
def Widget.updateStyle (parse : String → Option Quantity) (w : Widget) : String :=
  let cw := w.updateStyleColors parse
  "TaurusValueLineEdit \x7bcolor: " ++ cw.1 ++ "; font-weight: " ++ cw.2 ++ "\x7d"

/-- `TaurusValueLineEdit._updateValidator`: a fresh `_PintValidator` with
`bottom = minLimit`, `top = maxLimit` for Integer/Float data types, no
validator otherwise. -/
def Widget.updateValidator (w : Widget) (vtype : DataType) : Widget :=
  if vtype = DataType.Integer ∨ vtype = DataType.Float then
    let validator := ((PintValidator.mk none none).setBottom w.minLimit).setTop w.maxLimit
    { w with validator := some validator }
  else
    { w with validator := none }

/-- `TaurusValueLineEdit.handleEvent`: on a Config event, store
`attr.alarm` into the alarm fields and `attr.range` into the limit fields,
then run `_updateValidator(evt_value)`; other event types leave this state
unchanged (the base-class call touches no field modelled here). -/
def Widget.handleEvent (w : Widget) (evtType : TaurusEventType) (cfg : AttrConfig) : Widget :=
  if evtType = TaurusEventType.Config then
    let w1 := { w with minAlarm := cfg.alarm.1, maxAlarm := cfg.alarm.2,
                       minLimit := cfg.range.1, maxLimit := cfg.range.2 }
    w1.updateValidator cfg.vtype
  else w

/-- A wheel event: its `delta()` and the held keyboard modifiers. -/
structure WheelEvt where
  delta : ℤ
  control : Bool
  alt : Bool

/-- The keyboard keys this module distinguishes. -/
inductive Key
  | Return
  | Enter
  | Up
  | Down
  | Other
deriving DecidableEq, Repr

/-- A key-press event: the key and the held keyboard modifiers. -/
structure KeyEvt where
  key : Key
  control : Bool
  alt : Bool

/-- `TaurusValueLineEdit.wheelEvent`: the step count handed to `_stepBy`,
or `none` when the event is delegated to `QLineEdit.wheelEvent` (wheel
disabled, read-only widget, absent or non-numeric model).  Integer
divisions are Python floor divisions; the `Alt` scaling turns the count
into a float. -/
def Widget.wheelSteps (w : Widget) (e : WheelEvt) : Option ℚ :=
  if !w.enableWheelEvent || w.readOnly then none
  else
    match w.model with
    | none => none
    | some m =>
      if !m.numericB then none
      else
        let numDegrees : ℤ := Int.fdiv e.delta 8
        let numSteps : ℤ := Int.fdiv numDegrees 15
        if e.control then some ((numSteps * 10 : ℤ) : ℚ)
        else if e.alt && m.floatB then some ((numSteps : ℚ) * (1 / 10))
        else some ((numSteps : ℚ))

/-- `TaurusValueLineEdit.keyPressEvent`: the step count handed to `_stepBy`,
or `none` when the event is delegated to `QLineEdit.keyPressEvent`
(Return/Enter, read-only widget, absent or non-numeric model, other key). -/
def Widget.keySteps (w : Widget) (e : KeyEvt) : Option ℚ :=
  if e.key = Key.Return ∨ e.key = Key.Enter then none
  else if w.readOnly then none
  else
    match w.model with
    | none => none
    | some m =>
      if !m.numericB then none
      else
        match (match e.key with
               | Key.Up => some (1 : ℤ)
               | Key.Down => some (-1 : ℤ)
               | _ => none) with
        | none => none
        | some numSteps =>
          if e.control then some ((numSteps * 10 : ℤ) : ℚ)
          else if e.alt && m.floatB then some ((numSteps : ℚ) * (1 / 10))
          else some ((numSteps : ℚ))

/-- `TaurusValueLineEdit._stepBy v`: `setValue(self.getValue() + v)`; the
numeric value written is the current value plus the step count. -/
def stepBy (getV v : ℚ) : ℚ := getV + v

/-- The Qt signals wired in `TaurusValueLineEdit.__init__`. -/
inductive Signal
  | textChanged
  | returnPressed
  | valueChangedSig
  | editingFinished
deriving DecidableEq, Repr

/-- The slot-level effects the claims distinguish. -/
inductive Action
  | emitValueChanged
  | updatePendingOperations
  | writeValue
deriving DecidableEq, Repr

/-- The actions run when a signal fires, from the `__init__` connections
and the slot bodies: `textChanged` → `valueChanged`, whose body only calls
`emitValueChanged`; `returnPressed` → `writeValue`; the emitted
`valueChanged` signal → `updatePendingOperations`; `editingFinished` →
`_onEditingFinished`, which calls `writeValue` only under `_autoApply`. -/
def slotActions (autoApply : Bool) : Signal → List Action
  | Signal.textChanged => [Action.emitValueChanged]
  | Signal.returnPressed => [Action.writeValue]
  | Signal.valueChangedSig => [Action.updatePendingOperations]
  | Signal.editingFinished => if autoApply then [Action.writeValue] else []

/-- The `TaurusConfigLineEdit` state the claims touch. -/
structure ConfigWidget where
  model : Option TaurusAttr := none
  text : String := ""
  configParam : List Char := []

/-- `TaurusConfigLineEdit.getValue`: `model.encode(self.text())` with any
exception (including the `AttributeError` from a `None` model) caught and
turned into `None`. -/
def ConfigWidget.getValue (w : ConfigWidget) : Option PyValue :=
  match w.model with
  | none => none
  | some m => m.encode w.text

/-- Python `str.rfind c`: the highest index of `c`, `-1` when absent. -/
def pyRfind (c : Char) : List Char → ℤ
  | [] => -1
  | a :: rest =>
    let r := pyRfind c rest
    if 0 ≤ r then r + 1
    else if a = c then 0 else -1

/-- The `_configParam` computed by `TaurusConfigLineEdit.setModel`:
`model[model.rfind('=')+1:].lower()` (strings as character lists; none of
these operations can raise on a string, so the `except` fallback to `''`
is never taken). -/
def setModelConfigParam (s : List Char) : List Char :=
  (s.drop (pyRfind '=' s + 1).toNat).map Char.toLower

theorem PFloat.blt_irrefl (a : PFloat) : PFloat.blt a a = false := by
  cases a <;> simp [PFloat.blt]

theorem PFloat.ble_refl (a : PFloat) : PFloat.ble a a = true := by
  simp [PFloat.ble, PFloat.blt_irrefl]

/-- C1: for every input string parsing as a quantity `q`, `_validate`
returns `Invalid` whenever a set bottom limit has `q < bottom` or a set top
limit has `q > top`; when every set limit comparison succeeds and is
satisfied it returns `Acceptable` with the input string and cursor
position unchanged. -/
theorem validate_range_c1 (parse : String → Option Quantity) (v : PintValidator)
    (input : String) (pos : ℕ) (q : Quantity) (hp : parse input = some q) :
    ((∃ b, v.bottom = some b ∧ q.qlt b = .ok true) ∨
     (∃ t, v.top = some t ∧ q.qgt t = .ok true) →
      (v.qValidate parse input pos).1 = QState.Invalid) ∧
    ((∀ b, v.bottom = some b → q.qlt b = .ok false) →
     (∀ t, v.top = some t → q.qgt t = .ok false) →
      v.qValidate parse input pos = (QState.Acceptable, input, pos)) := by
  constructor
  · rintro (⟨b, hb, hlt⟩ | ⟨t, ht, hgt⟩)
    · simp [PintValidator.qValidate, hp, PintValidator.checkLimits, hb, hlt]
    · cases hbot : v.bottom with
      | none =>
        simp [PintValidator.qValidate, hp, PintValidator.checkLimits, hbot,
              PintValidator.checkTop, ht, hgt]
      | some b =>
        cases hq : q.qlt b with
        | error e =>
          simp [PintValidator.qValidate, hp, PintValidator.checkLimits, hbot, hq]
        | ok c =>
          cases c
          · simp [PintValidator.qValidate, hp, PintValidator.checkLimits, hbot, hq,
                  PintValidator.checkTop, ht, hgt]
          · simp [PintValidator.qValidate, hp, PintValidator.checkLimits, hbot, hq]
  · intro hb ht
    cases hbot : v.bottom with
    | none =>
      cases htop : v.top with
      | none =>
        simp [PintValidator.qValidate, hp, PintValidator.checkLimits, hbot,
              PintValidator.checkTop, htop]
      | some t =>
        simp [PintValidator.qValidate, hp, PintValidator.checkLimits, hbot,
              PintValidator.checkTop, htop, ht t htop]
    | some b =>
      cases htop : v.top with
      | none =>
        simp [PintValidator.qValidate, hp, PintValidator.checkLimits, hbot, hb b hbot,
              PintValidator.checkTop, htop]
      | some t =>
        simp [PintValidator.qValidate, hp, PintValidator.checkLimits, hbot, hb b hbot,
              PintValidator.checkTop, htop, ht t htop]

/-- Witness for C1: a validator with bottom `0 m` and top `10 m` accepts
the parsed quantity `5 m` unchanged. -/
theorem validate_range_c1_witness :
    PintValidator.qValidate
        (fun s => if s = "5 m" then some (Quantity.mk (PFloat.fin 5) "m") else none)
        (PintValidator.mk (some (Quantity.mk (PFloat.fin 0) "m"))
          (some (Quantity.mk (PFloat.fin 10) "m"))) "5 m" 3 =
      (QState.Acceptable, "5 m", 3) :=
  (validate_range_c1
      (fun s => if s = "5 m" then some (Quantity.mk (PFloat.fin 5) "m") else none)
      (PintValidator.mk (some (Quantity.mk (PFloat.fin 0) "m"))
        (some (Quantity.mk (PFloat.fin 10) "m"))) "5 m" 3
      (Quantity.mk (PFloat.fin 5) "m") (by decide)).2
    (by intro b hb; cases hb; rfl)
    (by intro t ht; cases ht; rfl)

/-- C7: an input that does not parse gives `Intermediate`; a parsed
quantity whose comparison with a set bottom (or top) limit raises
`DimensionalityError` gives `Invalid`. -/
theorem validate_error_c7 (parse : String → Option Quantity) (v : PintValidator)
    (input : String) (pos : ℕ) :
    (parse input = none →
      v.qValidate parse input pos = (QState.Intermediate, input, pos)) ∧
    (∀ q b, parse input = some q → v.bottom = some b →
      q.qlt b = .error .dimensionalityError →
      (v.qValidate parse input pos).1 = QState.Invalid) ∧
    (∀ q t, parse input = some q → v.top = some t →
      q.qgt t = .error .dimensionalityError →
      (v.qValidate parse input pos).1 = QState.Invalid) := by
  refine ⟨?_, ?_, ?_⟩
  · intro h
    simp [PintValidator.qValidate, h]
  · intro q b hq hb hlt
    simp [PintValidator.qValidate, hq, PintValidator.checkLimits, hb, hlt]
  · intro q t hq ht hgt
    cases hbot : v.bottom with
    | none =>
      simp [PintValidator.qValidate, hq, PintValidator.checkLimits, hbot,
            PintValidator.checkTop, ht, hgt]
    | some b =>
      cases hb : q.qlt b with
      | error e =>
        simp [PintValidator.qValidate, hq, PintValidator.checkLimits, hbot, hb]
      | ok c =>
        cases c
        · simp [PintValidator.qValidate, hq, PintValidator.checkLimits, hbot, hb,
                PintValidator.checkTop, ht, hgt]
        · simp [PintValidator.qValidate, hq, PintValidator.checkLimits, hbot, hb]

/-- Witness for C7: the unparseable input `"1.2."` gives `Intermediate`,
and comparing the parsed `5 m` against a dimensionless bottom limit gives
`Invalid`. -/
theorem validate_error_c7_witness :
    PintValidator.qValidate (fun _ => none)
        (PintValidator.mk none none) "1.2." 2 =
      (QState.Intermediate, "1.2.", 2) ∧
    (PintValidator.qValidate
        (fun s => if s = "5 m" then some (Quantity.mk (PFloat.fin 5) "m") else none)
        (PintValidator.mk (some (Quantity.ofFloat (PFloat.fin 0))) none) "5 m" 0).1 =
      QState.Invalid :=
  ⟨(validate_error_c7 (fun _ => none) (PintValidator.mk none none) "1.2." 2).1 rfl,
   (validate_error_c7
       (fun s => if s = "5 m" then some (Quantity.mk (PFloat.fin 5) "m") else none)
       (PintValidator.mk (some (Quantity.ofFloat (PFloat.fin 0))) none) "5 m" 0).2.1
     (Quantity.mk (PFloat.fin 5) "m") (Quantity.ofFloat (PFloat.fin 0))
     (by decide) rfl rfl⟩

/-- C6: `_inAlarm` is `True` exactly when `float(v)` exists and is not
strictly between the alarm bounds (so a value equal to a bound is in
alarm), and `False` when `float(v)` raises. -/
theorem inAlarm_c6 (w : Widget) (v : PyValue) :
    (v.pyFloat = none → w.inAlarm v = false) ∧
    (∀ x, v.pyFloat = some x →
      (w.inAlarm v = true ↔
        ¬(PFloat.blt w.minAlarm x = true ∧ PFloat.blt x w.maxAlarm = true))) ∧
    (v.pyFloat = some w.minAlarm → w.inAlarm v = true) ∧
    (v.pyFloat = some w.maxAlarm → w.inAlarm v = true) := by
  refine ⟨?_, ?_, ?_, ?_⟩
  · intro h
    simp [Widget.inAlarm, h]
  · intro x hx
    cases h1 : PFloat.blt w.minAlarm x <;> cases h2 : PFloat.blt x w.maxAlarm <;>
      simp [Widget.inAlarm, hx, h1, h2]
  · intro h
    simp [Widget.inAlarm, h, PFloat.blt_irrefl]
  · intro h
    simp [Widget.inAlarm, h, PFloat.blt_irrefl]

/-- Witness for C6: with alarm bounds `[0, 10]`, the value `0` (equal to
the minimum alarm bound) is in alarm, and a value with no float
conversion is not. -/
theorem inAlarm_c6_witness :
    Widget.inAlarm { minAlarm := PFloat.fin 0, maxAlarm := PFloat.fin 10 }
        { pyStr := "0", pyFloat := some (PFloat.fin 0) } = true ∧
    Widget.inAlarm { minAlarm := PFloat.fin 0, maxAlarm := PFloat.fin 10 }
        { pyStr := "abc", pyFloat := none } = false :=
  ⟨(inAlarm_c6 { minAlarm := PFloat.fin 0, maxAlarm := PFloat.fin 10 }
      { pyStr := "0", pyFloat := some (PFloat.fin 0) }).2.2.1 rfl,
   (inAlarm_c6 { minAlarm := PFloat.fin 0, maxAlarm := PFloat.fin 10 }
      { pyStr := "abc", pyFloat := none }).1 rfl⟩

/-- C8: with no validator installed, `_outOfRange` is `True` exactly when
`float(v)` exists and lies strictly outside the closed limit interval (the
bounds themselves are accepted, when the interval is nonempty), and
`False` when `float(v)` raises. -/
theorem outOfRange_c8 (parse : String → Option Quantity) (w : Widget) (v : PyValue)
    (hval : w.validator = none) :
    (v.pyFloat = none → w.outOfRange parse v = false) ∧
    (∀ x, v.pyFloat = some x →
      (w.outOfRange parse v = true ↔
        ¬(PFloat.ble w.minLimit x = true ∧ PFloat.ble x w.maxLimit = true))) ∧
    (PFloat.ble w.minLimit w.maxLimit = true →
      v.pyFloat = some w.minLimit → w.outOfRange parse v = false) ∧
    (PFloat.ble w.minLimit w.maxLimit = true →
      v.pyFloat = some w.maxLimit → w.outOfRange parse v = false) := by
  refine ⟨?_, ?_, ?_, ?_⟩
  · intro h
    simp [Widget.outOfRange, hval, h]
  · intro x hx
    cases h1 : PFloat.ble w.minLimit x <;> cases h2 : PFloat.ble x w.maxLimit <;>
      simp [Widget.outOfRange, hval, hx, h1, h2]
  · intro hle h
    simp [Widget.outOfRange, hval, h, PFloat.ble_refl, hle]
  · intro hle h
    simp [Widget.outOfRange, hval, h, PFloat.ble_refl, hle]

/-- Witness for C8: with limits `[0, 10]` and no validator, the boundary
value `0` is accepted, the value `11` is out of range, and a value with no
float conversion is accepted. -/
theorem outOfRange_c8_witness :
    Widget.outOfRange (fun _ => none)
        { minLimit := PFloat.fin 0, maxLimit := PFloat.fin 10 }
        { pyStr := "0", pyFloat := some (PFloat.fin 0) } = false ∧
    Widget.outOfRange (fun _ => none)
        { minLimit := PFloat.fin 0, maxLimit := PFloat.fin 10 }
        { pyStr := "abc", pyFloat := none } = false :=
  ⟨(outOfRange_c8 (fun _ => none)
      { minLimit := PFloat.fin 0, maxLimit := PFloat.fin 10 }
      { pyStr := "0", pyFloat := some (PFloat.fin 0) } rfl).2.2.1 (by decide) rfl,
   (outOfRange_c8 (fun _ => none)
      { minLimit := PFloat.fin 0, maxLimit := PFloat.fin 10 }
      { pyStr := "abc", pyFloat := none } rfl).1 rfl⟩

/-- C2: `updateStyle` picks `(color, weight)` by fixed priority: out of
range → gray; in alarm → orange, bold exactly when operations are pending;
pending operations → blue bold; otherwise black normal. -/
theorem updateStyle_c2 (parse : String → Option Quantity) (w : Widget) :
    (w.outOfRange parse (pyOf w.getValue) = true →
      w.updateStyleColors parse = ("gray", "normal")) ∧
    (w.outOfRange parse (pyOf w.getValue) = false →
      w.inAlarm (pyOf w.getValue) = true →
      w.updateStyleColors parse =
        ("orange", if w.pendingOps then "bold" else "normal")) ∧
    (w.outOfRange parse (pyOf w.getValue) = false →
      w.inAlarm (pyOf w.getValue) = false → w.pendingOps = true →
      w.updateStyleColors parse = ("blue", "bold")) ∧
    (w.outOfRange parse (pyOf w.getValue) = false →
      w.inAlarm (pyOf w.getValue) = false → w.pendingOps = false →
      w.updateStyleColors parse = ("black", "normal")) := by
  refine ⟨?_, ?_, ?_, ?_⟩
  · intro h
    simp [Widget.updateStyleColors, h]
  · intro h1 h2
    simp [Widget.updateStyleColors, h1, h2]
  · intro h1 h2 h3
    simp [Widget.updateStyleColors, h1, h2, h3]
  · intro h1 h2 h3
    simp [Widget.updateStyleColors, h1, h2, h3]

/-- Witness for C2: a fresh widget (no model, no validator, nothing
pending) is styled black/normal. -/
theorem updateStyle_c2_witness :
    Widget.updateStyleColors (fun _ => none) {} = ("black", "normal") :=
  (updateStyle_c2 (fun _ => none) {}).2.2.2 rfl rfl rfl

/-- A numeric float attribute whose `encode` always raises; a concrete
fixture for witnesses. -/
def exAttr : TaurusAttr := { encode := fun _ => none, numericB := true, floatB := true }

/-- A writable widget with wheel events enabled and the `exAttr` model; a
concrete fixture for witnesses. -/
def exWidget : Widget := { model := some exAttr, enableWheelEvent := true }

/-- C3: on a writable widget with wheel enabled and a numeric model, the
wheel step count is `delta / 8 / 15` (Python floor divisions) scaled by 10
under Control and by 0.1 under Alt on a float model; Key_Up/Key_Down give
base steps +1 and -1 with the same scaling; `_stepBy` adds the step count to
the current value. -/
theorem steps_c3 (w : Widget) (m : TaurusAttr) (e : WheelEvt) (k : KeyEvt) (cur s : ℚ)
    (hm : w.model = some m) (hnum : m.numericB = true)
    (hwheel : w.enableWheelEvent = true) (hro : w.readOnly = false)
    (hk : k.key = Key.Up ∨ k.key = Key.Down) :
    w.wheelSteps e =
      some (((Int.fdiv (Int.fdiv e.delta 8) 15 : ℤ) : ℚ) *
            (if e.control = true then 10
             else if e.alt = true ∧ m.floatB = true then 1 / 10
             else 1)) ∧
    w.keySteps k =
      some ((if k.key = Key.Up then (1 : ℚ) else -1) *
            (if k.control = true then 10
             else if k.alt = true ∧ m.floatB = true then 1 / 10
             else 1)) ∧
    stepBy cur s = cur + s := by
  refine ⟨?_, ?_, rfl⟩
  · cases hc : e.control <;> cases ha : e.alt <;> cases hf : m.floatB <;>
      simp [Widget.wheelSteps, hm, hnum, hwheel, hro, hc, ha, hf]
  · rcases hk with hk | hk <;>
      cases hc : k.control <;> cases ha : k.alt <;> cases hf : m.floatB <;>
      simp [Widget.keySteps, hk, hm, hnum, hro, hc, ha, hf]

/-- Witness for C3: a plain wheel tick of 120 and a plain Key_Up on the
fixture widget, and a concrete `_stepBy`. -/
theorem steps_c3_witness :
    Widget.wheelSteps exWidget { delta := 120, control := false, alt := false } =
      some (((Int.fdiv (Int.fdiv (120 : ℤ) 8) 15 : ℤ) : ℚ) *
            (if false = true then 10
             else if false = true ∧ exAttr.floatB = true then 1 / 10
             else 1)) ∧
    Widget.keySteps exWidget { key := Key.Up, control := false, alt := false } =
      some ((if Key.Up = Key.Up then (1 : ℚ) else -1) *
            (if false = true then 10
             else if false = true ∧ exAttr.floatB = true then 1 / 10
             else 1)) ∧
    stepBy 2 1 = 2 + 1 :=
  steps_c3 exWidget exAttr { delta := 120, control := false, alt := false }
    { key := Key.Up, control := false, alt := false } 2 1 rfl rfl rfl rfl (Or.inl rfl)

/-- C4: on a Config event, `handleEvent` stores the attribute alarm bounds
into the alarm fields and the range bounds into the limit fields, and
installs a `_PintValidator` with `bottom = minLimit`, `top = maxLimit` for
Integer/Float data types and `None` for every other type. -/
theorem handleEvent_c4 (w : Widget) (cfg : AttrConfig) :
    (w.handleEvent TaurusEventType.Config cfg).minAlarm = cfg.alarm.1 ∧
    (w.handleEvent TaurusEventType.Config cfg).maxAlarm = cfg.alarm.2 ∧
    (w.handleEvent TaurusEventType.Config cfg).minLimit = cfg.range.1 ∧
    (w.handleEvent TaurusEventType.Config cfg).maxLimit = cfg.range.2 ∧
    (w.handleEvent TaurusEventType.Config cfg).validator =
      (if cfg.vtype = DataType.Integer ∨ cfg.vtype = DataType.Float then
        some { bottom := some (Quantity.ofFloat cfg.range.1),
               top := some (Quantity.ofFloat cfg.range.2) }
      else none) := by
  by_cases h : cfg.vtype = DataType.Integer ∨ cfg.vtype = DataType.Float <;>
    simp [Widget.handleEvent, Widget.updateValidator, PintValidator.setBottom,
          PintValidator.setTop, h]

/-- C5: `textChanged` only emits `valueChanged`, whose slot updates the
pending operations; `writeValue` runs exactly on `returnPressed`, and on
`editingFinished` only when auto-apply is enabled. -/
theorem signals_c5 (a : Bool) (s : Signal) :
    slotActions a Signal.textChanged = [Action.emitValueChanged] ∧
    slotActions a Signal.valueChangedSig = [Action.updatePendingOperations] ∧
    Action.writeValue ∉ slotActions a Signal.textChanged ∧
    (Action.writeValue ∈ slotActions a s ↔
      s = Signal.returnPressed ∨ (s = Signal.editingFinished ∧ a = true)) := by
  cases a <;> cases s <;> decide

/-- C9: `getValue` of both widgets never propagates an error: with no
model object, or when `model.encode` fails on the current text, it
returns `None`. -/
theorem getValue_c9 (w : Widget) (cw : ConfigWidget) :
    (w.model = none → w.getValue = none) ∧
    (∀ m, w.model = some m → m.encode w.text = none → w.getValue = none) ∧
    (cw.model = none → cw.getValue = none) ∧
    (∀ m, cw.model = some m → m.encode cw.text = none → cw.getValue = none) := by
  refine ⟨?_, ?_, ?_, ?_⟩
  · intro h
    simp [Widget.getValue, h]
  · intro m hm he
    simp [Widget.getValue, hm, he]
  · intro h
    simp [ConfigWidget.getValue, h]
  · intro m hm he
    simp [ConfigWidget.getValue, hm, he]

/-- Witness for C9: a widget without a model and a config widget whose
model's `encode` raises both give `None`. -/
theorem getValue_c9_witness :
    Widget.getValue {} = none ∧
    ConfigWidget.getValue { model := some exAttr } = none :=
  ⟨(getValue_c9 {} { model := some exAttr }).1 rfl,
   (getValue_c9 {} { model := some exAttr }).2.2.2 exAttr rfl rfl⟩

theorem pyRfind_eq_neg_one (c : Char) (s : List Char) (h : c ∉ s) :
    pyRfind c s = -1 := by
  induction s with
  | nil => rfl
  | cons a rest ih =>
    simp only [List.mem_cons, not_or] at h
    simp [pyRfind, ih h.2, Ne.symm h.1]

theorem pyRfind_append (pre post : List Char) (h : '=' ∉ post) :
    pyRfind '=' (pre ++ '=' :: post) = pre.length := by
  induction pre with
  | nil => simp [pyRfind, pyRfind_eq_neg_one '=' post h]
  | cons a rest ih => simp [pyRfind, ih]

/-- C10: `setModel` sets `_configParam` to the lowercased suffix after the
last `'='`; with no `'='` in the model name the whole lowercased string is
taken (the `except` fallback to `''` is unreachable for string input,
which the embedding reflects by being a total function). -/
theorem setModel_c10 (pre post s : List Char) (h1 : '=' ∉ post) (h2 : '=' ∉ s) :
    setModelConfigParam (pre ++ '=' :: post) = post.map Char.toLower ∧
    setModelConfigParam s = s.map Char.toLower := by
  constructor
  · unfold setModelConfigParam
    rw [pyRfind_append pre post h1]
    have htn : ((pre.length : ℤ) + 1).toNat = pre.length + 1 := by omega
    rw [htn]
    have hdrop : (pre ++ '=' :: post).drop (pre.length + 1) = post := by
      simp
    rw [hdrop]
  · unfold setModelConfigParam
    rw [pyRfind_eq_neg_one '=' s h2]
    simp

/-- Witness for C10: `"a=B"` gives `_configParam = "b"` and the
`'='`-free `"X"` gives `"x"`. -/
theorem setModel_c10_witness :
    setModelConfigParam (['a'] ++ '=' :: ['B']) = ['B'].map Char.toLower ∧
    setModelConfigParam ['X'] = ['X'].map Char.toLower :=
  setModel_c10 ['a'] ['B'] ['X'] (by decide) (by decide)

end TaurusSpec
